import Mathlib

/-!
Shallow embedding of the bibcite source (src/bibcite/work.py): the Work
record model, candidate disambiguation in Work.from_query, registry
resolution (Work.get_crossref_item), search-request construction
(Work._search_request) and BibTeX formatting (Work.to_bibtex), together
with proofs about the behaviour of these functions.

HTTP responses are modelled as explicit inputs: the list of search hits,
the author-search result list, and a `registry` map from a DOI to the
response of the registry endpoint.
-/

namespace Bibcite

/-- Decidable equality of Except results, for evaluating the pipeline on
concrete inputs. -/
instance {ε α : Type} [DecidableEq ε] [DecidableEq α] :
    DecidableEq (Except ε α) := fun x y =>
  match x, y with
  | .error a, .error b =>
    if h : a = b then .isTrue (congrArg Except.error h)
    else .isFalse (fun hc => h (Except.error.inj hc))
  | .error _, .ok _ => .isFalse (fun hc => Except.noConfusion hc)
  | .ok _, .error _ => .isFalse (fun hc => Except.noConfusion hc)
  | .ok a, .ok b =>
    if h : a = b then .isTrue (congrArg Except.ok h)
    else .isFalse (fun hc => h (Except.ok.inj hc))

/-- An author entry of a registry record: a given/family pair
(the source reads author dicts with keys given and family). -/
structure Author where
  given : String
  family : String
  deriving DecidableEq

/-- A raw search hit as consumed by from_query: an OpenAlex work dict with a
possibly missing or null title, a nullable doi and a type string. -/
structure Candidate where
  title : Option String
  doi : Option String
  type : String
  deriving DecidableEq

/-- Failure modes of the pipeline, mirroring the exceptions the source
raises: the three ValueError messages of from_query, the ValueError of
get_crossref_item carrying the HTTP status code, KeyError / IndexError from
dict and list accesses, and the unsupported-entry-type ValueError of
to_bibtex. -/
inductive CiteErr where
  | noPapersFound (title : String)
  | noWorksWithDoi (title : String)
  | noMatchForFilters (title : String) (author : Option String)
  | registryError (status : Nat)
  | keyError (key : String)
  | indexError
  | unsupportedType (work_type : String)
  deriving DecidableEq

/-- The resolved Work record (dataclass Work). The year field is annotated
str in the source but at runtime holds the integer taken from the
registry's date-parts, so it is a Nat here. -/
structure Work where
  title : String
  authors : List Author
  year : Nat
  doi : String
  url : String
  work_type : String
  journal : Option String := none
  pages : Option String := none
  volume : Option String := none
  deriving DecidableEq

/-- Title similarity test of from_query: fuzz.ratio of the two lowercased
titles must exceed 95. A candidate whose title is missing or null makes the
scoring raise, which the source catches and turns into False. The
similarity metric itself is external library code (fuzzywuzzy), so it is a
parameter `score`. -/
def paper_title_matches (score : String → String → Nat) (title : String)
    (p : Candidate) : Bool :=
  match p.title with
  | none => false
  | some t => decide (score title.toLower t.toLower > 95)

/-- The disambiguation portion of Work.from_query (lines 30-56): reject an
empty result list, keep candidates whose title matches, then those with a
doi, then (when a work_type was supplied) those of that exact type, and
select the first remaining candidate. -/
def disambiguate (score : String → String → Nat) (title : String)
    (work_type : Option String) (author : Option String)
    (paper_dicts : List Candidate) : Except CiteErr Candidate :=
  if paper_dicts.length = 0 then
    .error (.noPapersFound title)
  else
    let relevant1 := paper_dicts.filter (fun p => paper_title_matches score title p)
    let relevant2 := relevant1.filter (fun p => !p.doi.isNone)
    if relevant2.length = 0 then
      .error (.noWorksWithDoi title)
    else
      let relevant3 :=
        match work_type with
        | some wt => relevant2.filter (fun p => p.type = wt)
        | none => relevant2
      match relevant3 with
      | [] => .error (.noMatchForFilters title author)
      | c :: _ => .ok c

/-- A registry record: the message payload of the Crossref works endpoint.
date_parts stands for the published date-parts list of lists;
container_title, page and volume are read with dict.get and so optional. -/
structure CrossrefItem where
  title : List String
  author : List Author
  date_parts : List (List Nat)
  DOI : String
  URL : String
  type : String
  container_title : Option (List String)
  page : Option String
  volume : Option String
  deriving DecidableEq

/-- An HTTP response of the registry endpoint: its status code and the
message field of its parsed JSON body (none models a body without a
message key). -/
structure HttpResponse where
  status_code : Nat
  message : Option CrossrefItem
  deriving DecidableEq

/-- Work.get_crossref_item: raise on any status code other than 200, else
return the message payload of the parsed body. -/
def get_crossref_item (resp : HttpResponse) : Except CiteErr CrossrefItem :=
  if resp.status_code ≠ 200 then
    .error (.registryError resp.status_code)
  else
    match resp.message with
    | none => .error (.keyError "message")
    | some item => .ok item

/-- The Work-construction tail of from_query (lines 57-72): map a registry
record into a Work. journal is container-title[0] when that list is truthy
(present and non-empty); title[0] and date-parts[0][0] raise IndexError
when the lists are empty. -/
def buildWork (item : CrossrefItem) : Except CiteErr Work :=
  match item.title with
  | [] => .error .indexError
  | t :: _ =>
    match item.date_parts with
    | [] => .error .indexError
    | dp :: _ =>
      match dp with
      | [] => .error .indexError
      | y :: _ =>
        let journal :=
          match item.container_title with
          | some (j :: _) => some j
          | some [] => none
          | none => none
        .ok ⟨t, item.author, y, item.DOI, item.URL, item.type,
             journal, item.page, item.volume⟩

/-- Resolution of a selected doi: fetch the registry record for it and
build the Work. -/
def resolve_doi (d : String) (registry : String → HttpResponse) :
    Except CiteErr Work :=
  match get_crossref_item (registry d) with
  | .error e => .error e
  | .ok item => buildWork item

/-- Work.from_query given the search response's results list and the
registry: disambiguate, then resolve the selected candidate's doi. The
selected candidate's doi is non-null by the doi filter, so the getD
default is never read. -/
def from_query (score : String → String → Nat) (title : String)
    (work_type : Option String) (author : Option String)
    (search_results : List Candidate) (registry : String → HttpResponse) :
    Except CiteErr Work :=
  match disambiguate score title work_type author search_results with
  | .error e => .error e
  | .ok c => resolve_doi (c.doi.getD "") registry

/-- One result row of the OpenAlex author search: only its id URL is read. -/
structure AuthorRec where
  id : String
  deriving DecidableEq

/-- The query parameters _search_request submits to the works endpoint. -/
structure SearchParams where
  filter : String
  sort : String
  per_page : Nat
  deriving DecidableEq

/-- Worker for Python str.split(sep): cur holds the (reversed) characters
of the piece being read; empty pieces are kept, as Python does for an
explicit separator. -/
def splitOnCharAux (sep : Char) : List Char → List Char → List (List Char)
  | [], cur => [cur.reverse]
  | c :: cs, cur =>
    if c == sep then cur.reverse :: splitOnCharAux sep cs []
    else splitOnCharAux sep cs (c :: cur)

/-- Python author_openalex_url.split('/')[-1]: the list split('/') returns
is never empty, so [-1] is its getLast. -/
def lastSlashComponent (s : String) : String :=
  String.mk ((splitOnCharAux '/' s.data []).getLastD [])

/-- Work._search_request: when an author is supplied, first resolve it via
the author search (author_results models that response's results list);
results[0] on an empty list raises IndexError before any filter expression
is built. The returned SearchParams are the params of the works request. -/
def search_request (title : String) (author : Option String)
    (author_results : List AuthorRec) : Except CiteErr SearchParams :=
  match author with
  | none => .ok ⟨"default.search:" ++ title, "relevance_score:desc", 200⟩
  | some _ =>
    match author_results with
    | [] => .error .indexError
    | r :: _ =>
      let author_id := lastSlashComponent r.id
      .ok ⟨"default.search:" ++ title ++ ",authorships.author.id:" ++ author_id,
           "relevance_score:desc", 200⟩

/-- Worker for wsTokens: cur holds the (reversed) characters of the token
being read. -/
def wsTokensAux : List Char → List Char → List (List Char)
  | [], cur => if cur.isEmpty then [] else [cur.reverse]
  | c :: cs, cur =>
    if c.isWhitespace then
      if cur.isEmpty then wsTokensAux cs []
      else cur.reverse :: wsTokensAux cs []
    else wsTokensAux cs (c :: cur)

/-- Python str.split() with no arguments: split on whitespace runs,
dropping empty pieces. -/
def wsTokens (l : List Char) : List (List Char) :=
  wsTokensAux l []

/-- A value of the info_list dict of to_bibtex: Python str, int or optional
str, with Python truthiness and f-string rendering. -/
inductive FieldVal where
  | str (s : String)
  | int (n : Nat)
  | optStr (o : Option String)
  deriving DecidableEq

/-- Python truthiness of an info_list value: non-empty string, non-zero
int, or present non-empty optional string. -/
def FieldVal.truthy : FieldVal → Bool
  | .str s => decide (s ≠ "")
  | .int n => decide (n ≠ 0)
  | .optStr o =>
    match o with
    | none => false
    | some s => decide (s ≠ "")

/-- f-string rendering of an info_list value. -/
def FieldVal.render : FieldVal → String
  | .str s => s
  | .int n => toString n
  | .optStr o =>
    match o with
    | none => "None"
    | some s => s

/-- The info_list dict of to_bibtex, in insertion order. -/
def infoList (w : Work) (authors : String) : List (String × FieldVal) :=
  [("title", .str w.title),
   ("author", .str authors),
   ("journal", .optStr w.journal),
   ("year", .int w.year),
   ("volume", .optStr w.volume),
   ("pages", .optStr w.pages),
   ("doi", .str w.doi),
   ("url", .str w.url)]

/-- The " and " join of "given family" renderings of the author list. -/
def joinAuthors (authors : List Author) : String :=
  String.intercalate " and " (authors.map (fun a => a.given ++ " " ++ a.family))

/-- One emitted body line of to_bibtex (with its trailing comma and
newline). -/
def fieldLine (kv : String × FieldVal) : String :=
  "  " ++ kv.1 ++ "=\x7b" ++ kv.2.render ++ "\x7d,\n"

/-- A body entry with its separator moved to the front: used to state the
shape of the final output, in which the separator sits between entries and
the trailing comma and newline are gone. -/
def bodyEntry (kv : String × FieldVal) : String :=
  ",\n  " ++ kv.1 ++ "=\x7b" ++ kv.2.render ++ "\x7d"

/-- The characters removed by rstrip(",\n"). -/
def isStripChar (c : Char) : Bool := c == ',' || c == '\n'

/-- Python str.rstrip(",\n"): remove all trailing characters from that
set. -/
def rstripCommaNl (s : String) : String :=
  String.mk ((s.data.reverse.dropWhile isStripChar).reverse)

/-- The entry-type dispatch at the top of to_bibtex. -/
def bibtexTypeOf (work_type : String) : Option String :=
  if work_type = "journal-article" then some "article"
  else if work_type = "book" then some "book"
  else if work_type = "proceedings-article" then some "inproceedings"
  else if work_type = "monograph" then some "book"
  else none

/-- Work.to_bibtex. Fails with unsupportedType on an unmapped work_type and
with indexError when authors is empty (authors[0]) or when the first
author's family name has no whitespace-separated token (split()[-1] on an
empty list). -/
def to_bibtex (w : Work) : Except CiteErr String :=
  match bibtexTypeOf w.work_type with
  | none => .error (.unsupportedType w.work_type)
  | some bibtex_type =>
    match w.authors with
    | [] => .error .indexError
    | a0 :: _ =>
      match (wsTokens a0.family.data).getLast? with
      | none => .error .indexError
      | some lt =>
        let authors := joinAuthors w.authors
        let header := "@" ++ bibtex_type ++ "\x7b" ++ String.mk lt
          ++ toString w.year ++ ",\n"
        let body := (infoList w authors).foldl
          (fun acc kv => if kv.2.truthy then acc ++ fieldLine kv else acc) header
        .ok (rstripCommaNl body ++ "\n\x7d")

/-- A string and the empty string concatenate to itself. -/
theorem str_append_empty (s : String) : s ++ "" = s := by
  apply String.ext
  simp [String.data_append]

/-- String.join distributes over cons. -/
theorem str_join_cons (a : String) (l : List String) :
    String.join (a :: l) = a ++ String.join l := by
  have aux : ∀ (m : List String) (s : String),
      List.foldl (fun r t => r ++ t) s m
      = s ++ List.foldl (fun r t => r ++ t) "" m := by
    intro m
    induction m with
    | nil =>
      intro s
      simp only [List.foldl_nil]
      exact (str_append_empty s).symm
    | cons b bs ih =>
      intro s
      have hb : ("" : String) ++ b = b := rfl
      simp only [List.foldl_cons]
      rw [ih (s ++ b), ih ("" ++ b), hb, String.append_assoc]
  show List.foldl (fun r t => r ++ t) ("" ++ a) l = a ++ String.join l
  rw [aux l ("" ++ a)]
  rfl

/-- String.join distributes over append. -/
theorem str_join_append (l1 l2 : List String) :
    String.join (l1 ++ l2) = String.join l1 ++ String.join l2 := by
  induction l1 with
  | nil =>
    simp only [List.nil_append]
    rfl
  | cons a as ih =>
    rw [List.cons_append, str_join_cons, str_join_cons, ih, String.append_assoc]

/-- The conditional append loop of to_bibtex is the join of the lines of
the truthy entries, appended to the initial string. -/
theorem foldl_emit (l : List (String × FieldVal)) : ∀ (init : String),
    l.foldl (fun acc kv => if kv.2.truthy then acc ++ fieldLine kv else acc) init
    = init ++ String.join ((l.filter (fun kv => kv.2.truthy)).map fieldLine) := by
  induction l with
  | nil =>
    intro init
    exact (str_append_empty init).symm
  | cons a as ih =>
    intro init
    by_cases h : a.2.truthy
    · simp only [List.foldl_cons, List.filter_cons, h, if_true, List.map_cons]
      rw [ih (init ++ fieldLine a), str_join_cons, String.append_assoc]
    · simp only [List.foldl_cons, List.filter_cons, h, Bool.false_eq_true,
        if_false]
      exact ih init

/-- Moving the comma-newline separators of the emitted lines from the back
of each line to the front. -/
theorem join_shift (l : List (String × FieldVal)) :
    ",\n" ++ String.join (l.map fieldLine)
    = String.join (l.map bodyEntry) ++ ",\n" := by
  induction l with
  | nil =>
    show ",\n" ++ "" = "" ++ ",\n"
    rw [str_append_empty]
    rfl
  | cons a as ih =>
    rw [List.map_cons, List.map_cons, str_join_cons, str_join_cons]
    have pair : ",\n" ++ fieldLine a = bodyEntry a ++ ",\n" := by
      apply String.ext
      simp [String.data_append, fieldLine, bodyEntry]
    rw [← String.append_assoc, pair, String.append_assoc, ih,
      ← String.append_assoc]

/-- rstrip(",\n") of a string ending in a non-strippable character followed
by one comma and one newline removes exactly that comma and newline. -/
theorem rstripCommaNl_of_ends (t : String) (u : List Char) (c : Char)
    (hc : isStripChar c = false) (ht : t.data = u ++ [c]) :
    rstripCommaNl (t ++ ",\n") = t := by
  unfold rstripCommaNl
  apply String.ext
  show (((t ++ ",\n").data.reverse.dropWhile isStripChar).reverse) = t.data
  rw [String.data_append, ht]
  have h2 : (",\n" : String).data = [',', '\n'] := rfl
  have hn : isStripChar '\n' = true := rfl
  have hcm : isStripChar ',' = true := rfl
  rw [h2]
  simp [List.reverse_append, List.dropWhile_cons, hc, hn, hcm]

/-- The data of an append whose right part ends in a given character. -/
theorem ends_of_append (x y : String) (u : List Char) (c : Char)
    (hy : y.data = u ++ [c]) : (x ++ y).data = (x.data ++ u) ++ [c] := by
  rw [String.data_append, hy, List.append_assoc]

/-- Every digit character of a base-10 rendering is one of 0-9. -/
theorem digitChar_mem_digits (m : Nat) (hm : m < 10) :
    m.digitChar ∈ ("0123456789" : String).data := by
  interval_cases m <;> decide

/-- Characters 0-9 are neither strippable nor whitespace. -/
theorem mem_digits_props (c : Char) (hc : c ∈ ("0123456789" : String).data) :
    isStripChar c = false ∧ c.isWhitespace = false := by
  fin_cases hc <;> exact ⟨rfl, rfl⟩

/-- Nat.toDigitsCore prepends at least the final digit to its
accumulator. -/
theorem toDigitsCore_shape (fuel : Nat) : ∀ (n : Nat) (acc : List Char),
    0 < fuel →
    ∃ u, Nat.toDigitsCore 10 fuel n acc = u ++ ((n % 10).digitChar :: acc) := by
  induction fuel with
  | zero =>
    intro n acc h
    exact absurd h (by omega)
  | succ f ih =>
    intro n acc _
    have hstep : Nat.toDigitsCore 10 (f + 1) n acc =
        if n / 10 = 0 then (n % 10).digitChar :: acc
        else Nat.toDigitsCore 10 f (n / 10) ((n % 10).digitChar :: acc) := rfl
    rw [hstep]
    by_cases h0 : n / 10 = 0
    · rw [if_pos h0]
      exact ⟨[], rfl⟩
    · rw [if_neg h0]
      cases f with
      | zero => exact ⟨[], rfl⟩
      | succ f2 =>
        obtain ⟨u, hu⟩ := ih (n / 10) ((n % 10).digitChar :: acc) (Nat.succ_pos _)
        refine ⟨u ++ [(n / 10 % 10).digitChar], ?_⟩
        rw [hu]
        simp

/-- All characters Nat.toDigitsCore produces over digit accumulators are
digits. -/
theorem toDigitsCore_digits (fuel : Nat) : ∀ (n : Nat) (acc : List Char),
    (∀ c ∈ acc, c ∈ ("0123456789" : String).data) →
    ∀ c ∈ Nat.toDigitsCore 10 fuel n acc, c ∈ ("0123456789" : String).data := by
  induction fuel with
  | zero =>
    intro n acc hacc
    exact hacc
  | succ f ih =>
    intro n acc hacc
    have hstep : Nat.toDigitsCore 10 (f + 1) n acc =
        if n / 10 = 0 then (n % 10).digitChar :: acc
        else Nat.toDigitsCore 10 f (n / 10) ((n % 10).digitChar :: acc) := rfl
    rw [hstep]
    have hd : (n % 10).digitChar ∈ ("0123456789" : String).data :=
      digitChar_mem_digits _ (Nat.mod_lt _ (by omega))
    by_cases h0 : n / 10 = 0
    · rw [if_pos h0]
      intro c hcmem
      rcases List.mem_cons.mp hcmem with h | h
      · rw [h]; exact hd
      · exact hacc c h
    · rw [if_neg h0]
      refine ih (n / 10) _ ?_
      intro c hcmem
      rcases List.mem_cons.mp hcmem with h | h
      · rw [h]; exact hd
      · exact hacc c h

/-- The decimal rendering of a Nat is its toDigitsCore run. -/
theorem toString_nat_data (n : Nat) :
    (toString n).data = Nat.toDigitsCore 10 (n + 1) n [] := rfl

/-- The decimal rendering of a Nat ends in a non-strippable digit. -/
theorem toString_nat_ends (n : Nat) :
    ∃ u c, (toString n).data = u ++ [c] ∧ isStripChar c = false := by
  obtain ⟨u, hu⟩ := toDigitsCore_shape (n + 1) n [] (Nat.succ_pos _)
  refine ⟨u, (n % 10).digitChar, ?_, ?_⟩
  · rw [toString_nat_data, hu]
  · exact (mem_digits_props _ (digitChar_mem_digits _ (Nat.mod_lt _ (by omega)))).1

/-- No character of the decimal rendering of a Nat is whitespace. -/
theorem toString_nat_no_ws (n : Nat) :
    ∀ c ∈ (toString n).data, c.isWhitespace = false := by
  intro c hc
  rw [toString_nat_data] at hc
  exact (mem_digits_props c (toDigitsCore_digits (n + 1) n [] (by simp) c hc)).2

/-- Every character of every token of wsTokensAux is non-whitespace,
provided the current partial token only holds non-whitespace. -/
theorem wsTokensAux_no_ws : ∀ (l cur : List Char),
    (∀ c ∈ cur, c.isWhitespace = false) →
    ∀ t ∈ wsTokensAux l cur, ∀ c ∈ t, c.isWhitespace = false := by
  intro l
  induction l with
  | nil =>
    intro cur hcur t ht c hc
    unfold wsTokensAux at ht
    split at ht
    · exact absurd ht (by simp)
    · rw [List.mem_singleton] at ht
      subst ht
      exact hcur c (List.mem_reverse.mp hc)
  | cons d ds ih =>
    intro cur hcur t ht c hc
    unfold wsTokensAux at ht
    split at ht
    next hw =>
      split at ht
      · exact ih [] (by simp) t ht c hc
      · rcases List.mem_cons.mp ht with h | h
        · subst h
          exact hcur c (List.mem_reverse.mp hc)
        · exact ih [] (by simp) t h c hc
    next hw =>
      rw [Bool.not_eq_true] at hw
      refine ih (d :: cur) ?_ t ht c hc
      intro e he
      rcases List.mem_cons.mp he with h | h
      · rw [h]
        exact hw
      · exact hcur e h

/-- No token produced by the whitespace split contains whitespace. -/
theorem wsTokens_no_ws (l : List Char) (t : List Char) (ht : t ∈ wsTokens l) :
    ∀ c ∈ t, c.isWhitespace = false :=
  wsTokensAux_no_ws l [] (by simp) t ht

/-- A body entry ends in a closing brace. -/
theorem bodyEntry_ends (kv : String × FieldVal) :
    ∃ u, (bodyEntry kv).data = u ++ ['\x7d'] := by
  refine ⟨(",\n  " ++ kv.1 ++ "=\x7b" ++ kv.2.render).data, ?_⟩
  show ((",\n  " ++ kv.1 ++ "=\x7b" ++ kv.2.render) ++ "\x7d").data = _
  rw [String.data_append]

/-- A non-empty join of body entries ends in a closing brace. -/
theorem join_bodyEntry_ends (l : List (String × FieldVal)) (hl : l ≠ []) :
    ∃ u, (String.join (l.map bodyEntry)).data = u ++ ['\x7d'] := by
  rcases List.eq_nil_or_concat l with h | ⟨es, e, he⟩
  · exact absurd h hl
  · subst he
    rw [List.concat_eq_append, List.map_append, str_join_append]
    obtain ⟨u, hu⟩ := bodyEntry_ends e
    refine ⟨(String.join (es.map bodyEntry)).data ++ u, ?_⟩
    have hj : (String.join ([e].map bodyEntry)).data = (bodyEntry e).data := rfl
    rw [String.data_append, hj, hu, List.append_assoc]

/-- Inversion of a successful to_bibtex run: the work_type is mapped, the
authors list is non-empty, and the first author's family name has a last
whitespace-separated token. -/
theorem to_bibtex_ok_inv (w : Work) (s : String) (h : to_bibtex w = .ok s) :
    ∃ bt a0 rest lt, bibtexTypeOf w.work_type = some bt ∧
      w.authors = a0 :: rest ∧ (wsTokens a0.family.data).getLast? = some lt := by
  unfold to_bibtex at h
  split at h
  · exact absurd h (by simp)
  next bt hbt =>
    split at h
    next ha => exact absurd h (by simp)
    next a0 rest ha =>
      split at h
      next hlt => exact absurd h (by simp)
      next lt hlt => exact ⟨bt, a0, rest, lt, hbt, ha, hlt⟩

/-- The exact shape of a successful to_bibtex output: entry type, citation
key, the separated body entries of the truthy fields, and the closing
brace, with the trailing comma and newline of the last emitted line
removed. -/
theorem to_bibtex_ok_form (w : Work) (bt : String) (a0 : Author)
    (rest : List Author) (lt : List Char)
    (hbt : bibtexTypeOf w.work_type = some bt) (ha : w.authors = a0 :: rest)
    (hlt : (wsTokens a0.family.data).getLast? = some lt) :
    to_bibtex w = .ok ("@" ++ bt ++ "\x7b" ++ String.mk lt ++ toString w.year
      ++ String.join (((infoList w (joinAuthors w.authors)).filter
        (fun kv => kv.2.truthy)).map bodyEntry) ++ "\n\x7d") := by
  unfold to_bibtex
  rw [hbt, ha]
  dsimp only
  rw [hlt]
  dsimp only
  congr 1
  rw [foldl_emit]
  have hshift : ("@" ++ bt ++ "\x7b" ++ String.mk lt ++ toString w.year ++ ",\n")
      ++ String.join (((infoList w (joinAuthors (a0 :: rest))).filter
          (fun kv => kv.2.truthy)).map fieldLine)
      = ("@" ++ bt ++ "\x7b" ++ String.mk lt ++ toString w.year
         ++ String.join (((infoList w (joinAuthors (a0 :: rest))).filter
            (fun kv => kv.2.truthy)).map bodyEntry)) ++ ",\n" := by
    rw [String.append_assoc ("@" ++ bt ++ "\x7b" ++ String.mk lt ++ toString w.year)
      ",\n" _, join_shift, ← String.append_assoc]
  rw [hshift]
  have hTend : ∃ u c, ("@" ++ bt ++ "\x7b" ++ String.mk lt ++ toString w.year
      ++ String.join (((infoList w (joinAuthors (a0 :: rest))).filter
        (fun kv => kv.2.truthy)).map bodyEntry)).data = u ++ [c] ∧
      isStripChar c = false := by
    by_cases hE : ((infoList w (joinAuthors (a0 :: rest))).filter
        (fun kv => kv.2.truthy)) = []
    · rw [hE]
      obtain ⟨u0, c0, hy, hc0⟩ := toString_nat_ends w.year
      refine ⟨(("@" ++ bt ++ "\x7b" ++ String.mk lt).data ++ u0) ++
        (String.join ([].map bodyEntry)).data, c0, ?_, hc0⟩
      rw [String.data_append,
        ends_of_append ("@" ++ bt ++ "\x7b" ++ String.mk lt) (toString w.year) u0 c0 hy]
      have : (String.join ([].map bodyEntry)).data = [] := rfl
      rw [this]
      simp
    · obtain ⟨uj, hjd⟩ := join_bodyEntry_ends _ hE
      exact ⟨("@" ++ bt ++ "\x7b" ++ String.mk lt ++ toString w.year).data ++ uj,
        '\x7d',
        ends_of_append ("@" ++ bt ++ "\x7b" ++ String.mk lt ++ toString w.year)
          _ uj '\x7d' hjd, rfl⟩
  obtain ⟨u, cc, hud, hcf⟩ := hTend
  rw [rstripCommaNl_of_ends _ u cc hcf hud]

/-- A successful to_bibtex output decomposes into the mapped entry type,
the citation key (last family token then year), and a remainder. -/
theorem to_bibtex_ok_split (w : Work) (s : String) (h : to_bibtex w = .ok s) :
    ∃ bt a0 rest lt, bibtexTypeOf w.work_type = some bt ∧
      w.authors = a0 :: rest ∧
      (wsTokens a0.family.data).getLast? = some lt ∧
      ∃ r, s = "@" ++ bt ++ "\x7b" ++ (String.mk lt ++ toString w.year) ++ r := by
  obtain ⟨bt, a0, rest, lt, hbt, ha, hlt⟩ := to_bibtex_ok_inv w s h
  have hm := to_bibtex_ok_form w bt a0 rest lt hbt ha hlt
  have hs := Except.ok.inj (h.symm.trans hm)
  refine ⟨bt, a0, rest, lt, hbt, ha, hlt,
    String.join (((infoList w (joinAuthors w.authors)).filter
      (fun kv => kv.2.truthy)).map bodyEntry) ++ "\n\x7d", ?_⟩
  rw [hs]
  apply String.ext
  simp [String.data_append, List.append_assoc]

/-- C2: the Work with title "Elements of Modern X-ray Physics", author
J. Als-Nielsen, year 2001, doi "10.x/y", url "https://doi.org/10.x/y",
work_type "book" and no journal, pages or volume formats to exactly the
expected BibTeX string. -/
theorem c2_als_nielsen_bibtex :
    to_bibtex ⟨"Elements of Modern X-ray Physics", [⟨"J.", "Als-Nielsen"⟩], 2001,
      "10.x/y", "https://doi.org/10.x/y", "book", none, none, none⟩ =
    .ok ("@book\x7bAls-Nielsen2001,\n  title=\x7bElements of Modern X-ray Physics\x7d,\n"
      ++ "  author=\x7bJ. Als-Nielsen\x7d,\n  year=\x7b2001\x7d,\n  doi=\x7b10.x/y\x7d,\n"
      ++ "  url=\x7bhttps://doi.org/10.x/y\x7d\n\x7d") := by
  decide

/-- C6: get_crossref_item fails with the registry error carrying the HTTP
status code exactly when the status is not the registry's success status
200, and on a 200 response whose parsed body has a message payload it
returns exactly that payload. -/
theorem c6_registry_fetch (resp : HttpResponse) :
    (resp.status_code ≠ 200 →
      get_crossref_item resp = .error (.registryError resp.status_code)) ∧
    (resp.status_code = 200 → ∀ item, resp.message = some item →
      get_crossref_item resp = .ok item) := by
  constructor
  · intro h
    simp [get_crossref_item, h]
  · intro h item hm
    simp [get_crossref_item, h, hm]

/-- Witness for c6_registry_fetch: a 404 response fails with the status
code, and a well-formed 200 response returns its message payload. -/
theorem c6_registry_fetch_witness :
    get_crossref_item ⟨404, none⟩ = .error (.registryError 404) ∧
    get_crossref_item ⟨200, some ⟨["T"], [⟨"A", "B"⟩], [[2020]], "10.1/x",
      "https://doi.org/10.1/x", "book", none, none, none⟩⟩ =
    .ok ⟨["T"], [⟨"A", "B"⟩], [[2020]], "10.1/x",
      "https://doi.org/10.1/x", "book", none, none, none⟩ :=
  ⟨(c6_registry_fetch ⟨404, none⟩).1 (by decide),
   (c6_registry_fetch _).2 rfl _ rfl⟩

/-- C5: a registry record accepted by buildWork (title list and date-parts
non-empty at the accessed positions) yields a Work whose title is the first
title entry, whose year is the first element of the first date-parts entry,
whose journal is the first container-title entry when present and absent
otherwise, and whose pages, volume and work_type are copied verbatim. -/
theorem c5_record_construction (item : CrossrefItem) (w : Work)
    (h : buildWork item = .ok w) :
    ∃ t ts y ys dps, item.title = t :: ts ∧ item.date_parts = (y :: ys) :: dps ∧
      w.title = t ∧ w.year = y ∧
      (∀ j js, item.container_title = some (j :: js) → w.journal = some j) ∧
      (item.container_title = none → w.journal = none) ∧
      w.pages = item.page ∧ w.volume = item.volume ∧ w.work_type = item.type := by
  unfold buildWork at h
  cases htitle : item.title with
  | nil =>
    rw [htitle] at h
    exact absurd h (by simp)
  | cons t ts =>
    rw [htitle] at h
    cases hdp : item.date_parts with
    | nil =>
      rw [hdp] at h
      exact absurd h (by simp)
    | cons dp dps =>
      rw [hdp] at h
      cases hdp2 : dp with
      | nil =>
        rw [hdp2] at h
        exact absurd h (by simp)
      | cons y ys =>
        rw [hdp2] at h
        dsimp only at h
        have hw := (Except.ok.inj h).symm
        subst hw
        refine ⟨t, ts, y, ys, dps, rfl, rfl, rfl, rfl, ?_, ?_, rfl, rfl, rfl⟩
        · intro j js hc
          simp [hc]
        · intro hc
          simp [hc]

/-- Witness for c5_record_construction at a concrete accepted record. -/
theorem c5_record_construction_witness :
    ∃ t ts y ys dps,
      (⟨["T1", "T2"], [⟨"A", "B"⟩], [[1999, 4]], "10.1/x", "u", "monograph",
        some ["J1"], some "1-2", some "7"⟩ : CrossrefItem).title = t :: ts ∧
      (⟨["T1", "T2"], [⟨"A", "B"⟩], [[1999, 4]], "10.1/x", "u", "monograph",
        some ["J1"], some "1-2", some "7"⟩ : CrossrefItem).date_parts = (y :: ys) :: dps ∧
      (⟨"T1", [⟨"A", "B"⟩], 1999, "10.1/x", "u", "monograph",
        some "J1", some "1-2", some "7"⟩ : Work).title = t ∧
      (⟨"T1", [⟨"A", "B"⟩], 1999, "10.1/x", "u", "monograph",
        some "J1", some "1-2", some "7"⟩ : Work).year = y ∧
      (∀ j js, (⟨["T1", "T2"], [⟨"A", "B"⟩], [[1999, 4]], "10.1/x", "u", "monograph",
        some ["J1"], some "1-2", some "7"⟩ : CrossrefItem).container_title = some (j :: js) →
        (⟨"T1", [⟨"A", "B"⟩], 1999, "10.1/x", "u", "monograph",
          some "J1", some "1-2", some "7"⟩ : Work).journal = some j) ∧
      ((⟨["T1", "T2"], [⟨"A", "B"⟩], [[1999, 4]], "10.1/x", "u", "monograph",
        some ["J1"], some "1-2", some "7"⟩ : CrossrefItem).container_title = none →
        (⟨"T1", [⟨"A", "B"⟩], 1999, "10.1/x", "u", "monograph",
          some "J1", some "1-2", some "7"⟩ : Work).journal = none) ∧
      (⟨"T1", [⟨"A", "B"⟩], 1999, "10.1/x", "u", "monograph",
        some "J1", some "1-2", some "7"⟩ : Work).pages =
        (⟨["T1", "T2"], [⟨"A", "B"⟩], [[1999, 4]], "10.1/x", "u", "monograph",
          some ["J1"], some "1-2", some "7"⟩ : CrossrefItem).page ∧
      (⟨"T1", [⟨"A", "B"⟩], 1999, "10.1/x", "u", "monograph",
        some "J1", some "1-2", some "7"⟩ : Work).volume =
        (⟨["T1", "T2"], [⟨"A", "B"⟩], [[1999, 4]], "10.1/x", "u", "monograph",
          some ["J1"], some "1-2", some "7"⟩ : CrossrefItem).volume ∧
      (⟨"T1", [⟨"A", "B"⟩], 1999, "10.1/x", "u", "monograph",
        some "J1", some "1-2", some "7"⟩ : Work).work_type =
        (⟨["T1", "T2"], [⟨"A", "B"⟩], [[1999, 4]], "10.1/x", "u", "monograph",
          some ["J1"], some "1-2", some "7"⟩ : CrossrefItem).type :=
  c5_record_construction _ _ (by decide)

/-- C7: when an author string is supplied and the author search returns an
empty results list, search_request fails (results[0] raises) without ever
building a works filter; and every successfully built request with an
author supplied carries the author clause in its combined filter, so the
author is never silently dropped. -/
theorem c7_author_resolution (title a : String) (author_results : List AuthorRec) :
    (author_results = [] →
      search_request title (some a) author_results = .error .indexError) ∧
    (∀ p, search_request title (some a) author_results = .ok p →
      ∃ i, p.filter = "default.search:" ++ title ++ ",authorships.author.id:" ++ i) := by
  constructor
  · intro h
    subst h
    rfl
  · intro p hp
    cases author_results with
    | nil => exact absurd hp (by simp [search_request])
    | cons r rs =>
      refine ⟨lastSlashComponent r.id, ?_⟩
      have := Except.ok.inj hp
      rw [← this]

/-- Witness for c7_author_resolution: the empty author-search response
fails, and a one-result response produces the combined filter. -/
theorem c7_author_resolution_witness :
    search_request "T" (some "A") [] = .error .indexError ∧
    ∃ i, ("default.search:T,authorships.author.id:A5") =
      "default.search:" ++ "T" ++ ",authorships.author.id:" ++ i :=
  ⟨(c7_author_resolution "T" "A" []).1 rfl,
   (c7_author_resolution "T" "A" [⟨"https://openalex.org/A5"⟩]).2
     ⟨"default.search:T,authorships.author.id:A5", "relevance_score:desc", 200⟩
     (by decide)⟩

/-- C10: for a Work with a supported work_type but an empty authors list,
to_bibtex raises the index-out-of-range error at authors[0] instead of
producing a citation; the formatter never validates non-emptiness. -/
theorem c10_empty_authors_index_error (w : Work) (h : w.authors = [])
    (hs : w.work_type = "journal-article" ∨ w.work_type = "book" ∨
      w.work_type = "proceedings-article" ∨ w.work_type = "monograph") :
    to_bibtex w = .error .indexError := by
  obtain ⟨bt, hbt⟩ : ∃ bt, bibtexTypeOf w.work_type = some bt := by
    rcases hs with h1 | h1 | h1 | h1
    · exact ⟨"article", by rw [h1]; decide⟩
    · exact ⟨"book", by rw [h1]; decide⟩
    · exact ⟨"inproceedings", by rw [h1]; decide⟩
    · exact ⟨"book", by rw [h1]; decide⟩
  unfold to_bibtex
  rw [hbt, h]

/-- Witness for c10_empty_authors_index_error at a concrete author-less
journal article. -/
theorem c10_empty_authors_index_error_witness :
    to_bibtex ⟨"T", [], 2020, "10.1/x", "u", "journal-article",
      none, none, none⟩ = .error .indexError :=
  c10_empty_authors_index_error _ rfl (Or.inl rfl)

/-- C9: a candidate whose title is missing or null never matches (the
scoring error is caught and turned into False), and such a candidate is
silently dropped: inserting it anywhere into a non-empty candidate list
leaves the outcome of disambiguation unchanged, so a scoring error never
aborts the lookup. -/
theorem c9_unscorable_candidates_dropped (score : String → String → Nat)
    (title : String) (work_type author : Option String)
    (l1 l2 : List Candidate) (p : Candidate) (hp : p.title = none) :
    paper_title_matches score title p = false ∧
    (l1 ++ l2 ≠ [] →
      disambiguate score title work_type author (l1 ++ p :: l2) =
      disambiguate score title work_type author (l1 ++ l2)) := by
  have hm : paper_title_matches score title p = false := by
    simp [paper_title_matches, hp]
  refine ⟨hm, fun hne => ?_⟩
  have hfil : (l1 ++ p :: l2).filter (fun q => paper_title_matches score title q)
      = (l1 ++ l2).filter (fun q => paper_title_matches score title q) := by
    simp [List.filter_append, List.filter_cons, hm]
  have hA : ¬(l1 ++ p :: l2).length = 0 := by simp
  have hB : ¬(l1 ++ l2).length = 0 := by
    simpa [List.length_eq_zero] using hne
  unfold disambiguate
  rw [if_neg hA, if_neg hB, hfil]

/-- Witness for c9_unscorable_candidates_dropped: a title-less candidate in
front of a matching one changes nothing. -/
theorem c9_unscorable_candidates_dropped_witness :
    paper_title_matches (fun _ _ => 100) "T" ⟨none, some "10.2/y", "book"⟩ = false ∧
    ([] ++ [⟨some "T", some "10.1/x", "book"⟩] ≠ ([] : List Candidate) →
      disambiguate (fun _ _ => 100) "T" none none
        ([] ++ ⟨none, some "10.2/y", "book"⟩ :: [⟨some "T", some "10.1/x", "book"⟩]) =
      disambiguate (fun _ _ => 100) "T" none none
        ([] ++ [⟨some "T", some "10.1/x", "book"⟩])) :=
  c9_unscorable_candidates_dropped (fun _ _ => 100) "T" none none
    [] [⟨some "T", some "10.1/x", "book"⟩] ⟨none, some "10.2/y", "book"⟩ rfl

/-- C1: with no work_type filter, when the candidates passing the
similarity-above-95 and non-null-doi tests form the list c :: rest,
disambiguation selects c — the first qualifying candidate in input order,
with no secondary tie-break — and from_query resolves exactly c's doi; when
no candidate qualifies, from_query fails with a not-found error instead of
returning a Work. -/
theorem c1_disambiguation_first_qualifying (score : String → String → Nat)
    (title : String) (author : Option String) (cands : List Candidate)
    (registry : String → HttpResponse) :
    (∀ c rest,
      cands.filter (fun p => paper_title_matches score title p && !p.doi.isNone)
        = c :: rest →
      disambiguate score title none author cands = .ok c ∧
      ∃ d, c.doi = some d ∧
        from_query score title none author cands registry = resolve_doi d registry) ∧
    (cands.filter (fun p => paper_title_matches score title p && !p.doi.isNone) = [] →
      ∃ e, from_query score title none author cands registry = .error e ∧
        disambiguate score title none author cands = .error e) := by
  have hff : (cands.filter (fun p => paper_title_matches score title p)).filter
      (fun p => !p.doi.isNone)
      = cands.filter (fun p => paper_title_matches score title p && !p.doi.isNone) := by
    rw [List.filter_filter]
    congr 1
    funext a
    exact Bool.and_comm _ _
  constructor
  · intro c rest hq
    have hcne : ¬cands.length = 0 := by
      intro hnil
      rw [List.length_eq_zero] at hnil
      rw [hnil] at hq
      simp at hq
    have hdis : disambiguate score title none author cands = .ok c := by
      unfold disambiguate
      rw [if_neg hcne]
      dsimp only
      rw [hff, hq]
      simp
    refine ⟨hdis, ?_⟩
    have hmem : c ∈ cands.filter
        (fun p => paper_title_matches score title p && !p.doi.isNone) := by
      rw [hq]
      exact List.mem_cons_self _ _
    have hdoi := (Bool.and_elim_right (List.mem_filter.mp hmem).2)
    cases hd : c.doi with
    | none => rw [hd] at hdoi; simp at hdoi
    | some d =>
      refine ⟨d, rfl, ?_⟩
      unfold from_query
      rw [hdis]
      dsimp only
      rw [hd]
      rfl
  · intro hq
    cases cands with
    | nil => exact ⟨.noPapersFound title, rfl, rfl⟩
    | cons a as =>
      have hdis : disambiguate score title none author (a :: as)
          = .error (.noWorksWithDoi title) := by
        unfold disambiguate
        rw [if_neg (by simp)]
        dsimp only
        rw [hff, hq]
        simp
      exact ⟨.noWorksWithDoi title, by unfold from_query; rw [hdis], hdis⟩

/-- Witness for c1_disambiguation_first_qualifying: among two matching
candidates only the second has a doi, so it is selected and its doi
resolved; with a non-matching candidate list the lookup fails. -/
theorem c1_disambiguation_first_qualifying_witness :
    (disambiguate (fun _ _ => 100) "T" none none
        [⟨some "T", none, "book"⟩, ⟨some "T", some "d1", "book"⟩] =
      .ok ⟨some "T", some "d1", "book"⟩ ∧
      ∃ d, (Candidate.mk (some "T") (some "d1") "book").doi = some d ∧
        from_query (fun _ _ => 100) "T" none none
          [⟨some "T", none, "book"⟩, ⟨some "T", some "d1", "book"⟩]
          (fun _ => ⟨404, none⟩) = resolve_doi d (fun _ => ⟨404, none⟩)) ∧
    (∃ e, from_query (fun _ _ => 0) "T" none none [⟨some "T", some "d1", "book"⟩]
        (fun _ => ⟨404, none⟩) = .error e ∧
      disambiguate (fun _ _ => 0) "T" none none
        [⟨some "T", some "d1", "book"⟩] = .error e) :=
  ⟨(c1_disambiguation_first_qualifying (fun _ _ => 100) "T" none
      [⟨some "T", none, "book"⟩, ⟨some "T", some "d1", "book"⟩]
      (fun _ => ⟨404, none⟩)).1 ⟨some "T", some "d1", "book"⟩ [] (by decide),
   (c1_disambiguation_first_qualifying (fun _ _ => 0) "T" none
      [⟨some "T", some "d1", "book"⟩] (fun _ => ⟨404, none⟩)).2 (by decide)⟩

/-- A key whose every entry in the info list is non-truthy never appears
among the emitted keys. -/
theorem not_mem_map_fst_filter (l : List (String × FieldVal)) (key : String)
    (h : ∀ kv ∈ l, kv.1 = key → kv.2.truthy = false) :
    key ∉ (l.filter (fun kv => kv.2.truthy)).map Prod.fst := by
  intro hmem
  obtain ⟨kv, hkv, hfst⟩ := List.mem_map.mp hmem
  obtain ⟨hmem2, htr⟩ := List.mem_filter.mp hkv
  rw [h kv hmem2 hfst] at htr
  exact absurd htr (by simp)

/-- C3: to_bibtex maps journal-article to article, book to book,
proceedings-article to inproceedings and monograph to book (the entry type
opens the output), and any other work_type fails with the
unsupported-entry-type error instead of producing output. -/
theorem c3_type_mapping :
    (∀ w s, to_bibtex w = .ok s →
      (w.work_type = "journal-article" → ∃ r, s = "@article\x7b" ++ r) ∧
      (w.work_type = "book" → ∃ r, s = "@book\x7b" ++ r) ∧
      (w.work_type = "proceedings-article" → ∃ r, s = "@inproceedings\x7b" ++ r) ∧
      (w.work_type = "monograph" → ∃ r, s = "@book\x7b" ++ r)) ∧
    (∀ w, w.work_type ≠ "journal-article" → w.work_type ≠ "book" →
      w.work_type ≠ "proceedings-article" → w.work_type ≠ "monograph" →
      to_bibtex w = .error (.unsupportedType w.work_type)) := by
  constructor
  · intro w s h
    obtain ⟨bt, a0, rest, lt, hbt, ha, hlt, r, hs⟩ := to_bibtex_ok_split w s h
    refine ⟨?_, ?_, ?_, ?_⟩
    · intro hwt
      rw [hwt] at hbt
      have hb : bt = "article" :=
        Option.some.inj ((show bibtexTypeOf "journal-article" = some "article"
          from rfl).symm.trans hbt).symm
      rw [hb, show ("@" ++ "article" ++ "\x7b" : String) = "@article\x7b" from rfl,
        String.append_assoc] at hs
      exact ⟨_, hs⟩
    · intro hwt
      rw [hwt] at hbt
      have hb : bt = "book" :=
        Option.some.inj ((show bibtexTypeOf "book" = some "book"
          from rfl).symm.trans hbt).symm
      rw [hb, show ("@" ++ "book" ++ "\x7b" : String) = "@book\x7b" from rfl,
        String.append_assoc] at hs
      exact ⟨_, hs⟩
    · intro hwt
      rw [hwt] at hbt
      have hb : bt = "inproceedings" :=
        Option.some.inj ((show bibtexTypeOf "proceedings-article"
          = some "inproceedings" from rfl).symm.trans hbt).symm
      rw [hb, show ("@" ++ "inproceedings" ++ "\x7b" : String) = "@inproceedings\x7b"
        from rfl, String.append_assoc] at hs
      exact ⟨_, hs⟩
    · intro hwt
      rw [hwt] at hbt
      have hb : bt = "book" :=
        Option.some.inj ((show bibtexTypeOf "monograph" = some "book"
          from rfl).symm.trans hbt).symm
      rw [hb, show ("@" ++ "book" ++ "\x7b" : String) = "@book\x7b" from rfl,
        String.append_assoc] at hs
      exact ⟨_, hs⟩
  · intro w h1 h2 h3 h4
    have hnone : bibtexTypeOf w.work_type = none := by
      unfold bibtexTypeOf
      rw [if_neg h1, if_neg h2, if_neg h3, if_neg h4]
    unfold to_bibtex
    rw [hnone]

/-- Witness for c3_type_mapping: a book formats with the book entry type,
and the unmapped work_type dataset fails. -/
theorem c3_type_mapping_witness :
    (∃ r, ("@book\x7bB2,\n  title=\x7bT\x7d,\n  author=\x7bA B\x7d,\n  year=\x7b2\x7d,\n  doi=\x7bd\x7d,\n  url=\x7bu\x7d\n\x7d" : String)
      = "@book\x7b" ++ r) ∧
    to_bibtex ⟨"T", [⟨"A", "B"⟩], 2020, "d", "u", "dataset", none, none, none⟩
      = .error (.unsupportedType "dataset") :=
  ⟨(c3_type_mapping.1 ⟨"T", [⟨"A", "B"⟩], 2, "d", "u", "book", none, none, none⟩
      "@book\x7bB2,\n  title=\x7bT\x7d,\n  author=\x7bA B\x7d,\n  year=\x7b2\x7d,\n  doi=\x7bd\x7d,\n  url=\x7bu\x7d\n\x7d"
      (by decide)).2.1 rfl,
   c3_type_mapping.2 ⟨"T", [⟨"A", "B"⟩], 2020, "d", "u", "dataset", none, none, none⟩
     (by decide) (by decide) (by decide) (by decide)⟩

/-- C4: for a Work with non-empty authors whose to_bibtex run succeeds, the
emitted citation key is the last whitespace-separated token of the first
author's family name immediately followed by the year, with no separator;
neither part contains any whitespace. -/
theorem c4_citation_key (w : Work) (s : String) (a0 : Author)
    (rest : List Author) (ha : w.authors = a0 :: rest)
    (h : to_bibtex w = .ok s) :
    ∃ bt lt r, bibtexTypeOf w.work_type = some bt ∧
      (wsTokens a0.family.data).getLast? = some lt ∧
      s = "@" ++ bt ++ "\x7b" ++ (String.mk lt ++ toString w.year) ++ r ∧
      (∀ c ∈ lt, c.isWhitespace = false) ∧
      (∀ c ∈ (toString w.year).data, c.isWhitespace = false) := by
  obtain ⟨bt, a0', rest', lt, hbt, ha', hlt, r, hs⟩ := to_bibtex_ok_split w s h
  have haa : a0 = a0' := (List.cons.inj (ha.symm.trans ha')).1
  subst haa
  refine ⟨bt, lt, r, hbt, hlt, hs, ?_, toString_nat_no_ws w.year⟩
  · intro c hc
    exact wsTokens_no_ws a0.family.data lt (List.mem_of_mem_getLast? hlt) c hc

/-- Witness for c4_citation_key: family name "van Nielsen" keys as
Nielsen2001. -/
theorem c4_citation_key_witness :
    ∃ bt lt r, bibtexTypeOf "book" = some bt ∧
      (wsTokens ("van Nielsen" : String).data).getLast? = some lt ∧
      ("@book\x7bNielsen2001,\n  title=\x7bT\x7d,\n  author=\x7bJ. van Nielsen\x7d,\n  year=\x7b2001\x7d,\n  doi=\x7bd\x7d,\n  url=\x7bu\x7d\n\x7d" : String)
        = "@" ++ bt ++ "\x7b" ++ (String.mk lt ++ toString 2001) ++ r ∧
      (∀ c ∈ lt, c.isWhitespace = false) ∧
      (∀ c ∈ (toString 2001).data, c.isWhitespace = false) :=
  c4_citation_key
    ⟨"T", [⟨"J.", "van Nielsen"⟩], 2001, "d", "u", "book", none, none, none⟩
    "@book\x7bNielsen2001,\n  title=\x7bT\x7d,\n  author=\x7bJ. van Nielsen\x7d,\n  year=\x7b2001\x7d,\n  doi=\x7bd\x7d,\n  url=\x7bu\x7d\n\x7d"
    ⟨"J.", "van Nielsen"⟩ [] rfl (by decide)

/-- C8: a successful to_bibtex output consists of the header, then exactly
the truthy fields of the fixed-order info list, each rendered as a
two-space-indented key=value pair with a separating comma and newline, with
no trailing comma before the closing brace; an absent journal, pages or
volume contributes no line at all. -/
theorem c8_body_emission (w : Work) (s : String) (h : to_bibtex w = .ok s) :
    ∃ bt key,
      bibtexTypeOf w.work_type = some bt ∧
      s = "@" ++ bt ++ "\x7b" ++ key
        ++ String.join (((infoList w (joinAuthors w.authors)).filter
            (fun kv => kv.2.truthy)).map bodyEntry) ++ "\n\x7d" ∧
      (infoList w (joinAuthors w.authors)).map Prod.fst
        = ["title", "author", "journal", "year", "volume", "pages", "doi", "url"] ∧
      (w.journal = none → "journal" ∉ ((infoList w (joinAuthors w.authors)).filter
          (fun kv => kv.2.truthy)).map Prod.fst) ∧
      (w.pages = none → "pages" ∉ ((infoList w (joinAuthors w.authors)).filter
          (fun kv => kv.2.truthy)).map Prod.fst) ∧
      (w.volume = none → "volume" ∉ ((infoList w (joinAuthors w.authors)).filter
          (fun kv => kv.2.truthy)).map Prod.fst) := by
  obtain ⟨bt, a0, rest, lt, hbt, ha, hlt⟩ := to_bibtex_ok_inv w s h
  have hm := to_bibtex_ok_form w bt a0 rest lt hbt ha hlt
  have hs := Except.ok.inj (h.symm.trans hm)
  refine ⟨bt, String.mk lt ++ toString w.year, hbt, ?_, rfl, ?_, ?_, ?_⟩
  · rw [hs]
    apply String.ext
    simp [String.data_append, List.append_assoc]
  · intro hj
    refine not_mem_map_fst_filter _ _ ?_
    intro kv hkv hk
    fin_cases hkv <;> simp_all [FieldVal.truthy]
  · intro hp
    refine not_mem_map_fst_filter _ _ ?_
    intro kv hkv hk
    fin_cases hkv <;> simp_all [FieldVal.truthy]
  · intro hv
    refine not_mem_map_fst_filter _ _ ?_
    intro kv hkv hk
    fin_cases hkv <;> simp_all [FieldVal.truthy]

/-- Witness for c8_body_emission at a concrete book Work without journal,
pages or volume. -/
theorem c8_body_emission_witness :
    ∃ bt key,
      bibtexTypeOf "book" = some bt ∧
      ("@book\x7bB2,\n  title=\x7bT\x7d,\n  author=\x7bA B\x7d,\n  year=\x7b2\x7d,\n  doi=\x7bd\x7d,\n  url=\x7bu\x7d\n\x7d" : String)
        = "@" ++ bt ++ "\x7b" ++ key
        ++ String.join (((infoList
              ⟨"T", [⟨"A", "B"⟩], 2, "d", "u", "book", none, none, none⟩
              (joinAuthors [⟨"A", "B"⟩])).filter
            (fun kv => kv.2.truthy)).map bodyEntry) ++ "\n\x7d" ∧
      (infoList ⟨"T", [⟨"A", "B"⟩], 2, "d", "u", "book", none, none, none⟩
          (joinAuthors [⟨"A", "B"⟩])).map Prod.fst
        = ["title", "author", "journal", "year", "volume", "pages", "doi", "url"] ∧
      ((none : Option String) = none → "journal" ∉ ((infoList
          ⟨"T", [⟨"A", "B"⟩], 2, "d", "u", "book", none, none, none⟩
          (joinAuthors [⟨"A", "B"⟩])).filter
            (fun kv => kv.2.truthy)).map Prod.fst) ∧
      ((none : Option String) = none → "pages" ∉ ((infoList
          ⟨"T", [⟨"A", "B"⟩], 2, "d", "u", "book", none, none, none⟩
          (joinAuthors [⟨"A", "B"⟩])).filter
            (fun kv => kv.2.truthy)).map Prod.fst) ∧
      ((none : Option String) = none → "volume" ∉ ((infoList
          ⟨"T", [⟨"A", "B"⟩], 2, "d", "u", "book", none, none, none⟩
          (joinAuthors [⟨"A", "B"⟩])).filter
            (fun kv => kv.2.truthy)).map Prod.fst) :=
  c8_body_emission ⟨"T", [⟨"A", "B"⟩], 2, "d", "u", "book", none, none, none⟩
    "@book\x7bB2,\n  title=\x7bT\x7d,\n  author=\x7bA B\x7d,\n  year=\x7b2\x7d,\n  doi=\x7bd\x7d,\n  url=\x7bu\x7d\n\x7d"
    (by decide)

end Bibcite
